import Mathlib

/-!
The weather-by-postal-code service of go-lab-auction (`main.go`).

A shallow embedding of `main.go` and proofs about its request pipeline.

Modelling conventions.

* A Go `string` is a Lean `String`, read as its sequence of runes; `len` is the
  UTF-8 byte length (`String.utf8ByteSize`).
* A `float64` is a `Float64`: an IEEE 754 binary64 value.  Constants and the
  result of each operation are rounded to nearest, ties to even; an operation
  is rounded on its own (no fused multiply-add).
* A Go `error` is the text of its message; a pair `(value, error)` is an
  `Except String value`.
* The network is a `World`: it answers a GET from the list of URLs requested
  so far and the URL requested now.  Every function that calls `http.Get`
  takes the list of URLs requested so far and returns the extended list.
* `json.Unmarshal` and `os.Getenv` are fields of `Env`.
-/

set_option linter.unusedVariables false
set_option maxRecDepth 100000
set_option exponentiation.threshold 4000

namespace GoLabAuction

/-! ## float64 -/

/-- A `float64`: the finite value `(-1)^neg * m * 2^e`, with `m < 2^53`,
`-1074 ≤ e ≤ 971` and `2^52 ≤ m` unless `e = -1074`; an infinity; or NaN. -/
inductive Float64 where
  | finite (neg : Bool) (m : Nat) (e : Int)
  | inf (neg : Bool)
  | nan
  deriving DecidableEq, Repr

/-- The integer nearest to `num / den`, a tie going to the even one. -/
def roundHalfEven (num den : Nat) : Nat :=
  let q := num / den
  let r := num % den
  if 2 * r < den then q else if den < 2 * r then q + 1 else q + q % 2

/-- The number of binary digits of `n`, read 64 at a time while more than 64
remain; `fuel` bounds the number of steps. -/
def bitLengthAux : Nat → Nat → Nat
  | 0, _ => 0
  | fuel + 1, n =>
    if n = 0 then 0
    else if 2 ^ 64 ≤ n then bitLengthAux fuel (n / 2 ^ 64) + 64
    else bitLengthAux fuel (n / 2) + 1

/-- The number of binary digits of `n`. -/
def bitLength (n : Nat) : Nat := bitLengthAux n n

/-- The integer `k` with `2^k ≤ n / d < 2^(k+1)`, for positive `n` and `d`. -/
def floorLog2 (n d : Nat) : Int :=
  let k : Int := (bitLength n : Int) - (bitLength d : Int)
  if (if 0 ≤ k then d * 2 ^ k.toNat ≤ n else d ≤ n * 2 ^ (-k).toNat) then k else k - 1

/-- The `float64` nearest to `(-1)^neg * n / d` (`d` positive): 53 significant
bits, exponent not below `-1074`, an infinity past the largest finite value. -/
def Float64.round (neg : Bool) (n d : Nat) : Float64 :=
  if n = 0 then .finite neg 0 (-1074)
  else
    let e : Int := max (floorLog2 n d - 52) (-1074)
    let m := if 0 ≤ e then roundHalfEven n (d * 2 ^ e.toNat)
      else roundHalfEven (n * 2 ^ (-e).toNat) d
    let e := if m = 2 ^ 53 then e + 1 else e
    let m := if m = 2 ^ 53 then 2 ^ 52 else m
    if 971 < e then .inf neg else .finite neg m e

/-- The `float64` nearest to `(-1)^neg * n * 2^e`. -/
def Float64.scaled (neg : Bool) (n : Nat) (e : Int) : Float64 :=
  if 0 ≤ e then Float64.round neg (n * 2 ^ e.toNat) 1 else Float64.round neg n (2 ^ (-e).toNat)

/-- Operator `*` of `float64`. -/
def Float64.mul : Float64 → Float64 → Float64
  | .finite s1 m1 e1, .finite s2 m2 e2 => Float64.scaled (xor s1 s2) (m1 * m2) (e1 + e2)
  | .finite s1 m1 _, .inf s2 => if m1 = 0 then .nan else .inf (xor s1 s2)
  | .inf s1, .finite s2 m2 _ => if m2 = 0 then .nan else .inf (xor s1 s2)
  | .inf s1, .inf s2 => .inf (xor s1 s2)
  | _, _ => .nan

/-- Operator `+` of `float64`. -/
def Float64.add : Float64 → Float64 → Float64
  | .finite s1 m1 e1, .finite s2 m2 e2 =>
    let e := min e1 e2
    let a := m1 * 2 ^ (e1 - e).toNat
    let b := m2 * 2 ^ (e2 - e).toNat
    if s1 = s2 then Float64.scaled s1 (a + b) e
    else if a = b then .finite false 0 (-1074)
    else if b < a then Float64.scaled s1 (a - b) e
    else Float64.scaled s2 (b - a) e
  | .finite _ _ _, .inf s2 => .inf s2
  | .inf s1, .finite _ _ _ => .inf s1
  | .inf s1, .inf s2 => if s1 = s2 then .inf s1 else .nan
  | _, _ => .nan

/-- Unary `-` of `float64`. -/
def Float64.neg : Float64 → Float64
  | .finite s m e => .finite (!s) m e
  | .inf s => .inf (!s)
  | .nan => .nan

/-- Whether a `float64` is neither an infinity nor NaN. -/
def Float64.isFinite : Float64 → Bool
  | .finite _ _ _ => true
  | _ => false

instance : Mul Float64 := ⟨Float64.mul⟩
instance : Add Float64 := ⟨Float64.add⟩
instance : Neg Float64 := ⟨Float64.neg⟩

/-- An integer constant as a `float64`. -/
instance (n : Nat) : OfNat Float64 n := ⟨Float64.round false n 1⟩

/-- A decimal constant `m * 10^(-e)` or `m * 10^e` as a `float64`. -/
instance : OfScientific Float64 :=
  ⟨fun m s e => if s then Float64.round false m (10 ^ e) else Float64.round false (m * 10 ^ e) 1⟩

/-! ## Data model -/

/-- Struct `ViaCEPResponse`. -/
structure ViaCEPResponse where
  cep : String
  logradouro : String
  complemento : String
  bairro : String
  localidade : String
  uf : String
  ibge : String
  erro : Bool
  deriving DecidableEq, Repr

/-- Anonymous struct of field `Location` of `WeatherAPIResponse`. -/
structure WeatherLocation where
  name : String
  region : String
  country : String
  lat : Float64
  lon : Float64
  timeZone : String
  localTime : String
  deriving DecidableEq, Repr

/-- Anonymous struct of field `Current` of `WeatherAPIResponse`. -/
structure WeatherCurrent where
  tempC : Float64
  deriving DecidableEq, Repr

/-- Struct `WeatherAPIResponse`. -/
structure WeatherAPIResponse where
  location : WeatherLocation
  current : WeatherCurrent
  deriving DecidableEq, Repr

/-- Struct `TemperatureResponse`. -/
structure TemperatureResponse where
  tempC : Float64
  tempF : Float64
  tempK : Float64
  deriving DecidableEq, Repr

/-- Struct `ErrorResponse`. -/
structure ErrorResponse where
  message : String
  deriving DecidableEq, Repr

/-- The response body written: the JSON encoding of a `TemperatureResponse` or
of an `ErrorResponse`, or no byte at all. -/
inductive Payload where
  | temperature (t : TemperatureResponse)
  | error (e : ErrorResponse)
  | empty
  deriving DecidableEq, Repr

/-- What a handler leaves in the `http.ResponseWriter`: the `Content-Type`
header, the status code and the body. -/
structure Response where
  contentType : String
  statusCode : Nat
  body : Payload
  deriving DecidableEq, Repr

/-- An `*http.Response` as the program uses it: the status code, and the
outcome of `ioutil.ReadAll(resp.Body)`. -/
structure HttpResponse where
  statusCode : Nat
  body : Except String String

/-- The network: from the URLs requested so far and the URL requested now, the
outcome of `http.Get`. -/
abbrev World := List String → String → Except String HttpResponse

/-- The ambient library behaviour the program relies on. -/
structure Env where
  /-- Function `os.Getenv`: the value of a variable, `""` when it is unset. -/
  getenv : String → String
  /-- Function `json.Unmarshal` into a `ViaCEPResponse`. -/
  unmarshalViaCEP : String → Except String ViaCEPResponse
  /-- Function `json.Unmarshal` into a `WeatherAPIResponse`. -/
  unmarshalWeather : String → Except String WeatherAPIResponse

def statusOK : Nat := 200
def statusNotFound : Nat := 404
def statusUnprocessableEntity : Nat := 422
def statusInternalServerError : Nat := 500

/-! ## Strings -/

/-- Go `len(s)`: the number of bytes of `s`. -/
def len (s : String) : Nat := s.utf8ByteSize

/-- Go `s[n:]` for a string held as runes: drop the first `n` bytes.  `none`
when `n` is past the end (Go panics) or falls inside a rune (the result is not
a sequence of runes). -/
def sliceFromList : List Char → Nat → Option (List Char)
  | cs, 0 => some cs
  | [], _ + 1 => none
  | c :: cs, n + 1 =>
    if c.utf8Size ≤ n + 1 then sliceFromList cs (n + 1 - c.utf8Size) else none

/-- Go `s[n:]`. -/
def sliceFrom (s : String) (n : Nat) : Option String :=
  (sliceFromList s.data n).map String.mk

/-- The regular expression `[^0-9]`: the runes it matches. -/
def nonDigit (c : Char) : Bool :=
  !('0'.toNat ≤ c.toNat && c.toNat ≤ '9'.toNat)

/-- Method `ReplaceAllString` of a regular expression that is one character
class, with a replacement text free of `$`: each matching rune is replaced by
`repl`, each other rune is copied. -/
def replaceAllString (cls : Char → Bool) (src repl : String) : String :=
  String.mk (src.data.flatMap fun c => if cls c then repl.data else [c])

/-- Hexadecimal digit of `url.QueryEscape` (`upperhex`). -/
def upperhex (n : Nat) : Char :=
  "0123456789ABCDEF".data.getD n '0'

/-- The UTF-8 encoding of a rune, as byte values. -/
def utf8Bytes (c : Char) : List Nat :=
  let v := c.toNat
  if v < 0x80 then [v]
  else if v < 0x800 then [0xC0 + v / 64, 0x80 + v % 64]
  else if v < 0x10000 then [0xE0 + v / 4096, 0x80 + v / 64 % 64, 0x80 + v % 64]
  else [0xF0 + v / 262144, 0x80 + v / 4096 % 64, 0x80 + v / 64 % 64, 0x80 + v % 64]

/-- One byte under `url.QueryEscape`: letters, digits and `-_.~` are kept, a
space becomes `+`, every other byte becomes `%XX`. -/
def escapeByte (b : Nat) : List Char :=
  if (0x61 ≤ b ∧ b ≤ 0x7A) ∨ (0x41 ≤ b ∧ b ≤ 0x5A) ∨ (0x30 ≤ b ∧ b ≤ 0x39)
      ∨ b = 0x2D ∨ b = 0x5F ∨ b = 0x2E ∨ b = 0x7E then [Char.ofNat b]
  else if b = 0x20 then ['+']
  else ['%', upperhex (b / 16), upperhex (b % 16)]

/-- Function `url.QueryEscape`. -/
def queryEscape (s : String) : String :=
  String.mk (s.data.flatMap fun c => (utf8Bytes c).flatMap escapeByte)

/-! ## The program -/

/-- Function `http.Get`: asks the world and records the URL. -/
def httpGet (w : World) (tr : List String) (url : String) :
    Except String HttpResponse × List String :=
  (w tr url, tr ++ [url])

/-- Function `isValidCEP`. -/
def isValidCEP (cep : String) : Bool :=
  let cleanCEP := replaceAllString nonDigit cep ""
  len cleanCEP == 8

/-- Function `getLocationByCEP`. -/
def getLocationByCEP (env : Env) (w : World) (tr : List String) (cep : String) :
    Except String ViaCEPResponse × List String :=
  let cleanCEP := replaceAllString nonDigit cep ""
  let url := "https://viacep.com.br/ws/" ++ cleanCEP ++ "/json/"
  match httpGet w tr url with
  | (.error err, tr1) => (.error err, tr1)
  | (.ok resp, tr1) =>
    match resp.body with
    | .error err => (.error err, tr1)
    | .ok body =>
      match env.unmarshalViaCEP body with
      | .error err => (.error err, tr1)
      | .ok location =>
        if location.erro || location.localidade == "" then
          (.error "CEP not found", tr1)
        else
          (.ok location, tr1)

/-- Function `getTemperatureByLocation`. -/
def getTemperatureByLocation (env : Env) (w : World) (tr : List String) (city : String) :
    Except String WeatherAPIResponse × List String :=
  let apiKey := env.getenv "WEATHER_API_KEY"
  let apiKey := if apiKey == "" then "sua_chave_api" else apiKey
  let paramEncoded := queryEscape city
  let url := "http://api.weatherapi.com/v1/current.json?key="
    ++ "cfbabc7298d04b5896f154926252104" ++ "&q=" ++ paramEncoded ++ "&aqi=no"
  match httpGet w tr url with
  | (.error err, tr1) => (.error err, tr1)
  | (.ok resp, tr1) =>
    if resp.statusCode != statusOK then
      (.error ("weather API returned status code " ++ toString resp.statusCode), tr1)
    else
      match resp.body with
      | .error err => (.error err, tr1)
      | .ok body =>
        match env.unmarshalWeather body with
        | .error err => (.error err, tr1)
        | .ok weather => (.ok weather, tr1)

/-- Function `respondWithError`, after the handler has set the `Content-Type`
header. -/
def respondWithError (statusCode : Nat) (message : String) : Response :=
  let errorResponse : ErrorResponse := { message := message }
  { contentType := "application/json", statusCode := statusCode, body := .error errorResponse }

/-- Function `json.Marshal` on a `TemperatureResponse`: an error when a field
is an infinity or NaN, which JSON cannot hold. -/
def jsonMarshal (t : TemperatureResponse) : Except String Payload :=
  if t.tempC.isFinite && t.tempF.isFinite && t.tempK.isFinite then .ok (.temperature t)
  else .error "json: unsupported value"

/-- Function `handleWeatherRequest`, from the request path `r.URL.Path`: the
response written and the URLs requested.  `none` when slicing the path fails. -/
def handleWeatherRequest (env : Env) (w : World) (tr : List String) (path : String) :
    Option (Response × List String) :=
  match sliceFrom path (len "/weather/") with
  | none => none
  | some cep =>
    if !isValidCEP cep then
      some (respondWithError statusUnprocessableEntity "invalid zipcode", tr)
    else
      match getLocationByCEP env w tr cep with
      | (.error _, tr1) => some (respondWithError statusNotFound "can not find zipcode", tr1)
      | (.ok location, tr1) =>
        match getTemperatureByLocation env w tr1 location.localidade with
        | (.error _, tr2) =>
          some (respondWithError statusInternalServerError "error fetching temperature data", tr2)
        | (.ok temp, tr2) =>
          let tempC := temp.current.tempC
          let tempF := tempC * 1.8 + 32
          let tempK := tempC + 273.15
          let response : TemperatureResponse := { tempC := tempC, tempF := tempF, tempK := tempK }
          let jsonResponse := match jsonMarshal response with
            | .ok bytes => bytes
            | .error _ => Payload.empty
          some ({ contentType := "application/json", statusCode := statusOK,
                  body := jsonResponse }, tr2)

/-! ## Predicates and values used in the statements -/

/-- The runes of `0-9`. -/
def isDigit09 (c : Char) : Bool := decide ('0' ≤ c ∧ c ≤ '9')

/-- The ways the postal lookup requested at `url` can fail. -/
inductive LocalityFailure (env : Env) (w : World) (tr : List String) (url : String) : Prop
  | transport (e : String) (hget : w tr url = .error e)
  | unreadable (resp : HttpResponse) (e : String) (hget : w tr url = .ok resp)
      (hread : resp.body = .error e)
  | undecodable (resp : HttpResponse) (body e : String) (hget : w tr url = .ok resp)
      (hread : resp.body = .ok body) (hjson : env.unmarshalViaCEP body = .error e)
  | notFoundFlag (resp : HttpResponse) (body : String) (loc : ViaCEPResponse)
      (hget : w tr url = .ok resp) (hread : resp.body = .ok body)
      (hjson : env.unmarshalViaCEP body = .ok loc) (hflag : loc.erro = true)
  | emptyLocality (resp : HttpResponse) (body : String) (loc : ViaCEPResponse)
      (hget : w tr url = .ok resp) (hread : resp.body = .ok body)
      (hjson : env.unmarshalViaCEP body = .ok loc) (hname : loc.localidade = "")

/-- The ways the weather lookup requested at `url` can fail. -/
inductive WeatherFailure (env : Env) (w : World) (tr : List String) (url : String) : Prop
  | transport (e : String) (hget : w tr url = .error e)
  | nonSuccess (resp : HttpResponse) (hget : w tr url = .ok resp)
      (hstatus : resp.statusCode ≠ 200)
  | unreadable (resp : HttpResponse) (e : String) (hget : w tr url = .ok resp)
      (hstatus : resp.statusCode = 200) (hread : resp.body = .error e)
  | undecodable (resp : HttpResponse) (body e : String) (hget : w tr url = .ok resp)
      (hstatus : resp.statusCode = 200) (hread : resp.body = .ok body)
      (hjson : env.unmarshalWeather body = .error e)

/-- The URL `getLocationByCEP` requests. -/
def viaCEPURL (cep : String) : String :=
  "https://viacep.com.br/ws/" ++ String.mk (cep.data.filter isDigit09) ++ "/json/"

/-- The URL `getTemperatureByLocation` requests. -/
def weatherURL (city : String) : String :=
  "http://api.weatherapi.com/v1/current.json?key=cfbabc7298d04b5896f154926252104&q="
    ++ queryEscape city ++ "&aqi=no"

/-! ## Concrete environments

The bodies and the transport of `main_test.go`, used to evaluate the program. -/

/-- Postal-lookup body of `TestGetLocationByCEP_Success`. -/
def viaCEPResp : String :=
  "\x7b\"cep\":\"01001-000\",\"logradouro\":\"Praça da Sé\",\"bairro\":\"Sé\",\"localidade\":\"São Paulo\",\"uf\":\"SP\"\x7d"

/-- Postal-lookup body of `TestGetLocationByCEP_Invalid`. -/
def erroResp : String := "\x7b\"erro\": true\x7d"

/-- Weather body of `TestGetTemperatureByLocation_Success`. -/
def weatherResp : String :=
  "\x7b\"location\":\x7b\"name\":\"São Paulo\",\"region\":\"SP\",\"country\":\"Brazil\",\"lat\":-23.55,\"lon\":-46.64,\"tz_id\":\"America/Sao_Paulo\",\"localtime\":\"2023-08-01 10:00\"\x7d,\"current\":\x7b\"temp_c\":25.0\x7d\x7d"

/-- What `viaCEPResp` decodes to. -/
def saoPaulo : ViaCEPResponse :=
  { cep := "01001-000", logradouro := "Praça da Sé", complemento := "", bairro := "Sé",
    localidade := "São Paulo", uf := "SP", ibge := "", erro := false }

/-- What `erroResp` decodes to. -/
def erroDecoded : ViaCEPResponse :=
  { cep := "", logradouro := "", complemento := "", bairro := "", localidade := "",
    uf := "", ibge := "", erro := true }

/-- What `weatherResp` decodes to. -/
def saoPauloWeather : WeatherAPIResponse :=
  { location := { name := "São Paulo", region := "SP", country := "Brazil", lat := -23.55,
                  lon := -46.64, timeZone := "America/Sao_Paulo",
                  localTime := "2023-08-01 10:00" },
    current := { tempC := 25 } }

/-- A weather body with the reading `1e308`. -/
def hugeResp : String := "\x7b\"current\":\x7b\"temp_c\":1e308\x7d\x7d"

/-- What `hugeResp` decodes to. -/
def hugeWeather : WeatherAPIResponse :=
  { location := { name := "", region := "", country := "", lat := 0, lon := 0,
                  timeZone := "", localTime := "" },
    current := { tempC := 1e308 } }

/-- A weather body with the reading `-40`. -/
def coldResp : String := "\x7b\"current\":\x7b\"temp_c\":-40\x7d\x7d"

/-- What `coldResp` decodes to. -/
def coldWeather : WeatherAPIResponse :=
  { location := { name := "", region := "", country := "", lat := 0, lon := 0,
                  timeZone := "", localTime := "" },
    current := { tempC := -40 } }

/-- An environment with the given `WEATHER_API_KEY` that decodes the bodies
above and rejects every other body. -/
def testEnv (key : String) : Env where
  getenv := fun name => if name == "WEATHER_API_KEY" then key else ""
  unmarshalViaCEP := fun body =>
    if body == viaCEPResp then .ok saoPaulo
    else if body == erroResp then .ok erroDecoded
    else .error "invalid character"
  unmarshalWeather := fun body =>
    if body == weatherResp then .ok saoPauloWeather
    else if body == hugeResp then .ok hugeWeather
    else if body == coldResp then .ok coldWeather
    else .error "invalid character"

/-- The transport of `TestHandleWeatherRequest_Integration`: the postal host
answers `viaCEPResp`, the weather host answers `weatherResp`. -/
def testWorld : World := fun _ url =>
  if "https://viacep.com.br/".data.isPrefixOf url.data then
    .ok { statusCode := 200, body := .ok viaCEPResp }
  else if "http://api.weatherapi.com/".data.isPrefixOf url.data then
    .ok { statusCode := 200, body := .ok weatherResp }
  else .error "unexpected call"

/-- The transport of `TestGetLocationByCEP_Invalid`: every request is answered
with the error flag. -/
def erroWorld : World := fun _ _ => .ok { statusCode := 200, body := .ok erroResp }

/-- A transport whose postal host answers the error flag and whose weather
host answers `weatherResp`. -/
def erroPostalWorld : World := fun _ url =>
  if "https://viacep.com.br/".data.isPrefixOf url.data then
    .ok { statusCode := 200, body := .ok erroResp }
  else .ok { statusCode := 200, body := .ok weatherResp }

/-- A transport on which every request fails. -/
def downWorld : World := fun _ _ => .error "connection refused"

/-- A transport whose postal host answers `viaCEPResp` and whose weather host
answers status 503. -/
def weatherDownWorld : World := fun _ url =>
  if "https://viacep.com.br/".data.isPrefixOf url.data then
    .ok { statusCode := 200, body := .ok viaCEPResp }
  else .ok { statusCode := 503, body := .ok "Service Unavailable" }

/-! ## float64: known values -/

/-- The model of `float64` on values known from IEEE 754 binary64: the forms
of 1 and of the least positive value, the largest finite value and the
overflow past it, and three roundings. -/
theorem float64_known_values :
    (1 : Float64) = .finite false (2 ^ 52) (-52)
    ∧ (5e-324 : Float64) = .finite false 1 (-1074)
    ∧ (1.7976931348623157e308 : Float64) = .finite false (2 ^ 53 - 1) 971
    ∧ (1.7976931348623159e308 : Float64) = .inf false
    ∧ (0.1 : Float64) + 0.2 = 0.30000000000000004
    ∧ (36.6 : Float64) * 1.8 + 32 = 97.88000000000001
    ∧ (-40 : Float64) + 273.15 = 233.14999999999998
    ∧ (1e308 : Float64) * 1.8 = .inf false := by
  refine ⟨by decide!, by decide!, by decide!, by decide!, by decide!, by decide!, by decide!,
    by decide!⟩

/-! ## Strings: lemmas -/

theorem nonDigit_eq (c : Char) : nonDigit c = !isDigit09 c := by
  unfold nonDigit isDigit09
  have h0 : ('0' ≤ c) ↔ '0'.toNat ≤ c.toNat := by
    rw [Char.le_def]; rfl
  have h9 : (c ≤ '9') ↔ c.toNat ≤ '9'.toNat := by
    rw [Char.le_def]; rfl
  by_cases a : '0'.toNat ≤ c.toNat <;> by_cases b : c.toNat ≤ '9'.toNat <;>
    simp [h0, h9, a, b]

theorem utf8Size_of_isDigit09 (c : Char) (h : isDigit09 c = true) : c.utf8Size = 1 := by
  have h9 : c.val ≤ '9'.val := by
    have := of_decide_eq_true h
    exact Char.le_def.mp this.2
  have h7 : c.val ≤ 127 := by
    have h9n : c.val.toNat ≤ 57 := h9
    show c.val.toNat ≤ 127
    omega
  unfold Char.utf8Size
  simp only []
  exact if_pos h7

theorem utf8ByteSize_go_eq (cs : List Char) :
    String.utf8ByteSize.go cs = (cs.map Char.utf8Size).sum := by
  induction cs with
  | nil => rfl
  | cons c cs ih =>
    show String.utf8ByteSize.go cs + c.utf8Size = _
    rw [ih, List.map_cons, List.sum_cons, Nat.add_comm]

theorem len_mk (cs : List Char) : len (String.mk cs) = (cs.map Char.utf8Size).sum := by
  unfold len String.utf8ByteSize
  exact utf8ByteSize_go_eq cs

/-- Replacing the matches of `[^0-9]` by nothing keeps exactly the runes of `0-9`. -/
theorem replaceAllString_nonDigit (s : String) :
    replaceAllString nonDigit s "" = String.mk (s.data.filter isDigit09) := by
  unfold replaceAllString
  congr 1
  induction s.data with
  | nil => rfl
  | cons c cs ih =>
    rw [List.flatMap_cons, ih, List.filter_cons, nonDigit_eq]
    cases isDigit09 c <;> simp

theorem sum_utf8Size_digits (cs : List Char) (h : ∀ c ∈ cs, isDigit09 c = true) :
    (cs.map Char.utf8Size).sum = cs.length := by
  induction cs with
  | nil => rfl
  | cons c cs ih =>
    simp only [List.map_cons, List.sum_cons, List.length_cons]
    rw [utf8Size_of_isDigit09 c (h c (List.mem_cons_self _ _)),
      ih (fun d hd => h d (List.mem_cons_of_mem _ hd))]
    omega

theorem len_clean (s : String) :
    len (replaceAllString nonDigit s "") = s.data.countP isDigit09 := by
  rw [replaceAllString_nonDigit, len_mk, sum_utf8Size_digits, List.countP_eq_length_filter]
  intro c hc
  exact (List.mem_filter.mp hc).2

theorem isValidCEP_eq (s : String) :
    isValidCEP s = decide (s.data.countP isDigit09 = 8) := by
  unfold isValidCEP
  simp only [len_clean]
  by_cases h : s.data.countP isDigit09 = 8 <;> simp [h]

/-! ## The pipeline: lemmas -/

theorem len_eq_sum (s : String) : len s = (s.data.map Char.utf8Size).sum := by
  cases s with
  | mk cs => exact len_mk cs

theorem utf8Size_pos (c : Char) : 0 < c.utf8Size := by
  unfold Char.utf8Size
  simp only []
  split
  · exact Nat.one_pos
  · split
    · decide
    · split <;> decide

theorem sliceFromList_zero (cs : List Char) : sliceFromList cs 0 = some cs := by
  cases cs <;> rfl

theorem sliceFromList_append (pre rest : List Char) :
    sliceFromList (pre ++ rest) (pre.map Char.utf8Size).sum = some rest := by
  induction pre with
  | nil => exact sliceFromList_zero rest
  | cons c cs ih =>
    have hpos := utf8Size_pos c
    obtain ⟨k, hk⟩ : ∃ k, c.utf8Size + (cs.map Char.utf8Size).sum = k + 1 :=
      ⟨c.utf8Size + (cs.map Char.utf8Size).sum - 1, by omega⟩
    rw [List.map_cons, List.sum_cons, List.cons_append, hk]
    have hle : c.utf8Size ≤ k + 1 := by omega
    have hsub : k + 1 - c.utf8Size = (cs.map Char.utf8Size).sum := by omega
    show (if c.utf8Size ≤ k + 1 then sliceFromList (cs ++ rest) (k + 1 - c.utf8Size) else none)
      = some rest
    rw [if_pos hle, hsub, ih]

/-- Slicing a prefix off by its length gives the rest; in particular the path
of a request routed to the handler, sliced after `/weather/`, is the raw
postal code. -/
theorem sliceFrom_append (pre raw : String) :
    sliceFrom (pre ++ raw) (len pre) = some raw := by
  unfold sliceFrom
  rw [String.data_append, len_eq_sum, sliceFromList_append]
  rfl

theorem getLocationByCEP_snd (env : Env) (w : World) (tr : List String) (cep : String) :
    (getLocationByCEP env w tr cep).2 = tr ++ [viaCEPURL cep] := by
  unfold getLocationByCEP httpGet viaCEPURL
  simp only [replaceAllString_nonDigit]
  cases w tr ("https://viacep.com.br/ws/" ++ String.mk (cep.data.filter isDigit09) ++ "/json/") with
  | error e => rfl
  | ok resp =>
    simp only []
    cases resp.body with
    | error e => rfl
    | ok body =>
      simp only []
      cases env.unmarshalViaCEP body with
      | error e => rfl
      | ok loc =>
        simp only []
        split <;> rfl

theorem getLocationByCEP_ok_iff (env : Env) (w : World) (tr : List String) (cep : String)
    (loc : ViaCEPResponse) :
    (getLocationByCEP env w tr cep).1 = .ok loc ↔
      ∃ resp body, w tr (viaCEPURL cep) = .ok resp ∧ resp.body = .ok body
        ∧ env.unmarshalViaCEP body = .ok loc ∧ loc.erro = false ∧ loc.localidade ≠ "" := by
  unfold getLocationByCEP httpGet viaCEPURL
  simp only [replaceAllString_nonDigit]
  cases hw : w tr ("https://viacep.com.br/ws/" ++ String.mk (cep.data.filter isDigit09)
      ++ "/json/") with
  | error e => simp
  | ok resp =>
    simp only []
    cases hb : resp.body with
    | error e => simp [hb]
    | ok body =>
      simp only []
      cases hj : env.unmarshalViaCEP body with
      | error e =>
        simp only [reduceCtorEq, false_iff, not_exists, not_and]
        intro resp2 body2 h1 h2 h3
        cases h1
        rw [hb] at h2
        cases h2
        rw [hj] at h3
        cases h3
      | ok loc1 =>
        simp only []
        by_cases hc : (loc1.erro || loc1.localidade == "") = true
        · rw [if_pos hc]
          simp only [Bool.or_eq_true, beq_iff_eq] at hc
          constructor
          · intro h; cases h
          · rintro ⟨resp2, body2, h1, h2, h3, h4, h5⟩
            cases h1
            rw [hb] at h2
            cases h2
            rw [hj] at h3
            cases h3
            rcases hc with hc | hc
            · rw [hc] at h4; cases h4
            · exact absurd hc h5
        · rw [if_neg hc]
          simp only [Bool.or_eq_true, beq_iff_eq, not_or, Bool.not_eq_true] at hc
          constructor
          · intro h
            cases h
            exact ⟨resp, body, rfl, hb, hj, hc.1, hc.2⟩
          · rintro ⟨resp2, body2, h1, h2, h3, _, _⟩
            cases h1
            rw [hb] at h2
            cases h2
            rw [hj] at h3
            cases h3
            rfl

theorem getLocationByCEP_error_iff (env : Env) (w : World) (tr : List String) (cep : String) :
    (∃ e, (getLocationByCEP env w tr cep).1 = .error e) ↔
      LocalityFailure env w tr (viaCEPURL cep) := by
  unfold getLocationByCEP httpGet viaCEPURL
  simp only [replaceAllString_nonDigit]
  cases hw : w tr ("https://viacep.com.br/ws/" ++ String.mk (cep.data.filter isDigit09)
      ++ "/json/") with
  | error e => exact ⟨fun _ => .transport e hw, fun _ => ⟨e, rfl⟩⟩
  | ok resp =>
    simp only []
    cases hb : resp.body with
    | error e => exact ⟨fun _ => .unreadable resp e hw hb, fun _ => ⟨e, rfl⟩⟩
    | ok body =>
      simp only []
      cases hj : env.unmarshalViaCEP body with
      | error e => exact ⟨fun _ => .undecodable resp body e hw hb hj, fun _ => ⟨e, rfl⟩⟩
      | ok loc =>
        simp only []
        by_cases hc : (loc.erro || loc.localidade == "") = true
        · rw [if_pos hc]
          simp only [Bool.or_eq_true, beq_iff_eq] at hc
          refine ⟨fun _ => ?_, fun _ => ⟨_, rfl⟩⟩
          rcases hc with hc | hc
          · exact .notFoundFlag resp body loc hw hb hj hc
          · exact .emptyLocality resp body loc hw hb hj hc
        · rw [if_neg hc]
          simp only [Bool.or_eq_true, beq_iff_eq, not_or, Bool.not_eq_true] at hc
          constructor
          · rintro ⟨e, he⟩; cases he
          · intro hf
            exfalso
            cases hf with
            | transport e hget => rw [hw] at hget; cases hget
            | unreadable r e hget hread =>
              rw [hw] at hget; cases hget; rw [hb] at hread; cases hread
            | undecodable r b e hget hread hjson =>
              rw [hw] at hget; cases hget; rw [hb] at hread; cases hread
              rw [hj] at hjson; cases hjson
            | notFoundFlag r b l hget hread hjson hflag =>
              rw [hw] at hget; cases hget; rw [hb] at hread; cases hread
              rw [hj] at hjson; cases hjson
              rw [hc.1] at hflag; cases hflag
            | emptyLocality r b l hget hread hjson hname =>
              rw [hw] at hget; cases hget; rw [hb] at hread; cases hread
              rw [hj] at hjson; cases hjson
              exact hc.2 hname

theorem weatherURL_eq (city : String) :
    "http://api.weatherapi.com/v1/current.json?key=" ++ "cfbabc7298d04b5896f154926252104"
      ++ "&q=" ++ queryEscape city ++ "&aqi=no" = weatherURL city := by
  have h : "http://api.weatherapi.com/v1/current.json?key=" ++ "cfbabc7298d04b5896f154926252104"
      ++ "&q=" = "http://api.weatherapi.com/v1/current.json?key=cfbabc7298d04b5896f154926252104&q="
      := by decide
  rw [h]
  rfl

theorem getTemperatureByLocation_snd (env : Env) (w : World) (tr : List String)
    (city : String) :
    (getTemperatureByLocation env w tr city).2 = tr ++ [weatherURL city] := by
  unfold getTemperatureByLocation httpGet
  simp only [weatherURL_eq]
  cases w tr (weatherURL city) with
  | error e => rfl
  | ok resp =>
    simp only []
    split
    · rfl
    · cases resp.body with
      | error e => rfl
      | ok body =>
        simp only []
        cases env.unmarshalWeather body <;> rfl

theorem getTemperatureByLocation_error_iff (env : Env) (w : World) (tr : List String)
    (city : String) :
    (∃ e, (getTemperatureByLocation env w tr city).1 = .error e) ↔
      WeatherFailure env w tr (weatherURL city) := by
  unfold getTemperatureByLocation httpGet
  simp only [weatherURL_eq]
  cases hw : w tr (weatherURL city) with
  | error e => exact ⟨fun _ => .transport e hw, fun _ => ⟨e, rfl⟩⟩
  | ok resp =>
    simp only []
    by_cases hs : resp.statusCode = 200
    · have hs2 : (resp.statusCode != statusOK) = false := by
        simp [statusOK, hs]
      simp only [hs2, Bool.false_eq_true, if_false]
      cases hb : resp.body with
      | error e => exact ⟨fun _ => .unreadable resp e hw hs hb, fun _ => ⟨e, rfl⟩⟩
      | ok body =>
        simp only []
        cases hj : env.unmarshalWeather body with
        | error e => exact ⟨fun _ => .undecodable resp body e hw hs hb hj, fun _ => ⟨e, rfl⟩⟩
        | ok weather =>
          constructor
          · rintro ⟨e, he⟩; cases he
          · intro hf
            exfalso
            cases hf with
            | transport e hget => rw [hw] at hget; cases hget
            | nonSuccess r hget hstatus => rw [hw] at hget; cases hget; exact hstatus hs
            | unreadable r e hget hstatus hread =>
              rw [hw] at hget; cases hget; rw [hb] at hread; cases hread
            | undecodable r b e hget hstatus hread hjson =>
              rw [hw] at hget; cases hget; rw [hb] at hread; cases hread
              rw [hj] at hjson; cases hjson
    · have hs2 : (resp.statusCode != statusOK) = true := by
        simp [statusOK, hs]
      simp only [hs2, if_true]
      exact ⟨fun _ => .nonSuccess resp hw hs, fun _ => ⟨_, rfl⟩⟩

/-! ## Claims -/

/-- C1: `isValidCEP s` is true exactly when `s` has 8 characters in `'0'..'9'`,
whatever its other characters; so the empty string, a string without any digit
and a string with more than 8 digits are rejected. -/
theorem isValidCEP_iff_eight_digits :
    (∀ s : String, isValidCEP s = true ↔
      s.data.countP (fun c => decide ('0' ≤ c ∧ c ≤ '9')) = 8)
    ∧ isValidCEP "" = false
    ∧ (∀ s : String, (∀ c ∈ s.data, ¬ ('0' ≤ c ∧ c ≤ '9')) → isValidCEP s = false)
    ∧ (∀ s : String, 8 < s.data.countP (fun c => decide ('0' ≤ c ∧ c ≤ '9')) →
        isValidCEP s = false) := by
  have key : ∀ s : String, isValidCEP s = true ↔
      s.data.countP (fun c => decide ('0' ≤ c ∧ c ≤ '9')) = 8 := by
    intro s
    rw [isValidCEP_eq]
    exact decide_eq_true_iff
  refine ⟨key, by decide, ?_, ?_⟩
  · intro s hs
    apply Bool.eq_false_iff.mpr
    intro h
    have h8 := (key s).mp h
    have h0 : s.data.countP (fun c => decide ('0' ≤ c ∧ c ≤ '9')) = 0 := by
      rw [List.countP_eq_zero]
      intro c hc
      simpa using hs c hc
    omega
  · intro s hs
    apply Bool.eq_false_iff.mpr
    intro h
    have h8 := (key s).mp h
    omega

theorem isValidCEP_iff_eight_digits_witness :
    isValidCEP "12.345-678" = true ∧ isValidCEP "-.-" = false
      ∧ isValidCEP "123456789" = false :=
  ⟨(isValidCEP_iff_eight_digits.1 "12.345-678").mpr (by decide),
   isValidCEP_iff_eight_digits.2.2.1 "-.-" (by decide),
   isValidCEP_iff_eight_digits.2.2.2 "123456789" (by decide)⟩


/-- C2: for every raw postal code that `isValidCEP` rejects, the handler answers
422 with message "invalid zipcode" and requests no URL, whatever the network
would have answered. -/
theorem handleWeatherRequest_invalid (env : Env) (w : World) (tr : List String)
    (raw : String) (hv : isValidCEP raw = false) :
    handleWeatherRequest env w tr ("/weather/" ++ raw)
      = some ({ contentType := "application/json", statusCode := 422,
                body := .error { message := "invalid zipcode" } }, tr) := by
  unfold handleWeatherRequest
  rw [sliceFrom_append]
  simp only [hv]
  rfl

theorem handleWeatherRequest_invalid_witness :
    isValidCEP "1234" = false ∧
    handleWeatherRequest (testEnv "fakekey") testWorld [] ("/weather/" ++ "1234")
      = some ({ contentType := "application/json", statusCode := 422,
                body := .error { message := "invalid zipcode" } }, []) :=
  ⟨by decide, handleWeatherRequest_invalid (testEnv "fakekey") testWorld [] "1234" (by decide)⟩

/-- C3: for every raw postal code that passes validation, the postal lookup
fails exactly on a transport error, an unreadable or undecodable body, a set
error flag or an empty locality name; on each of them the handler answers 404
with message "can not find zipcode", whatever the error, and the only URL
requested is the postal lookup: the weather lookup is not made. -/
theorem handleWeatherRequest_locality_failure (env : Env) (w : World) (tr : List String)
    (raw : String) (hv : isValidCEP raw = true) :
    ((∃ e, (getLocationByCEP env w tr raw).1 = .error e) ↔
      LocalityFailure env w tr
        ("https://viacep.com.br/ws/" ++ String.mk (raw.data.filter isDigit09) ++ "/json/"))
    ∧ (LocalityFailure env w tr
        ("https://viacep.com.br/ws/" ++ String.mk (raw.data.filter isDigit09) ++ "/json/") →
      handleWeatherRequest env w tr ("/weather/" ++ raw)
        = some ({ contentType := "application/json", statusCode := 404,
                  body := .error { message := "can not find zipcode" } },
                tr ++ ["https://viacep.com.br/ws/" ++ String.mk (raw.data.filter isDigit09)
                  ++ "/json/"])) := by
  refine ⟨getLocationByCEP_error_iff env w tr raw, fun hf => ?_⟩
  obtain ⟨e, he⟩ := (getLocationByCEP_error_iff env w tr raw).mpr hf
  have h2 := getLocationByCEP_snd env w tr raw
  unfold handleWeatherRequest
  rw [sliceFrom_append]
  simp only [hv]
  cases hg : getLocationByCEP env w tr raw with
  | mk r tr1 =>
    rw [hg] at he h2
    simp only [] at he h2
    subst he h2
    rfl

theorem handleWeatherRequest_locality_failure_witness :
    isValidCEP "01001-000" = true ∧
    handleWeatherRequest (testEnv "fakekey") downWorld [] ("/weather/" ++ "01001-000")
      = some ({ contentType := "application/json", statusCode := 404,
                body := .error { message := "can not find zipcode" } },
              [] ++ ["https://viacep.com.br/ws/"
                ++ String.mk ("01001-000".data.filter isDigit09) ++ "/json/"]) :=
  ⟨by decide,
   (handleWeatherRequest_locality_failure (testEnv "fakekey") downWorld [] "01001-000"
      (by decide)).2 (.transport "connection refused" rfl)⟩

/-- C4: for every valid postal code whose postal lookup succeeds, if the weather
lookup fails (transport error, a status other than 200 whatever the body, an
unreadable or undecodable body) the handler answers 500 with the fixed message
"error fetching temperature data": the response is the same for every upstream
status and error text. -/
theorem handleWeatherRequest_weather_failure (env : Env) (w : World) (tr tr1 : List String)
    (raw : String) (loc : ViaCEPResponse) (hv : isValidCEP raw = true)
    (hloc : getLocationByCEP env w tr raw = (.ok loc, tr1)) :
    ((∃ e, (getTemperatureByLocation env w tr1 loc.localidade).1 = .error e) ↔
      WeatherFailure env w tr1
        ("http://api.weatherapi.com/v1/current.json?key=cfbabc7298d04b5896f154926252104&q="
          ++ queryEscape loc.localidade ++ "&aqi=no"))
    ∧ (WeatherFailure env w tr1
        ("http://api.weatherapi.com/v1/current.json?key=cfbabc7298d04b5896f154926252104&q="
          ++ queryEscape loc.localidade ++ "&aqi=no") →
      handleWeatherRequest env w tr ("/weather/" ++ raw)
        = some ({ contentType := "application/json", statusCode := 500,
                  body := .error { message := "error fetching temperature data" } },
                tr1 ++ ["http://api.weatherapi.com/v1/current.json?key=cfbabc7298d04b5896f154926252104&q="
                  ++ queryEscape loc.localidade ++ "&aqi=no"])) := by
  refine ⟨getTemperatureByLocation_error_iff env w tr1 loc.localidade, fun hf => ?_⟩
  obtain ⟨e, he⟩ := (getTemperatureByLocation_error_iff env w tr1 loc.localidade).mpr hf
  unfold handleWeatherRequest
  rw [sliceFrom_append]
  simp only [hv, hloc]
  have h2 := getTemperatureByLocation_snd env w tr1 loc.localidade
  cases hg : getTemperatureByLocation env w tr1 loc.localidade with
  | mk r tr2 =>
    rw [hg] at he h2
    simp only [] at he h2
    subst he h2
    rfl

theorem handleWeatherRequest_weather_failure_witness :
    isValidCEP "01001-000" = true ∧
    handleWeatherRequest (testEnv "fakekey") weatherDownWorld [] ("/weather/" ++ "01001-000")
      = some ({ contentType := "application/json", statusCode := 500,
                body := .error { message := "error fetching temperature data" } },
              ["https://viacep.com.br/ws/01001000/json/"]
                ++ ["http://api.weatherapi.com/v1/current.json?key=cfbabc7298d04b5896f154926252104&q="
                  ++ queryEscape saoPaulo.localidade ++ "&aqi=no"]) :=
  ⟨by decide,
   (handleWeatherRequest_weather_failure (testEnv "fakekey") weatherDownWorld []
      ["https://viacep.com.br/ws/01001000/json/"] "01001-000" saoPaulo (by decide)
      (by rfl)).2
     (.nonSuccess { statusCode := 503, body := .ok "Service Unavailable" } (by rfl)
        (by decide))⟩


/-- C6 as stated fails: with a postal lookup that answers the error flag to
every request, the raw postal code "1234" is answered 422 "invalid zipcode",
not 404, and no URL is requested. -/
theorem handleWeatherRequest_erro_flag_invalid_cep :
    (∀ (h : List String) (u : String), ∃ resp body loc,
        erroWorld h u = .ok resp ∧ resp.body = .ok body
          ∧ (testEnv "fakekey").unmarshalViaCEP body = .ok loc ∧ loc.erro = true)
    ∧ handleWeatherRequest (testEnv "fakekey") erroWorld [] "/weather/1234"
        = some ({ contentType := "application/json", statusCode := 422,
                  body := .error { message := "invalid zipcode" } }, [])
    ∧ (handleWeatherRequest (testEnv "fakekey") erroWorld [] "/weather/1234").map
        (fun r => r.1.statusCode) ≠ some 404 := by
  have h : handleWeatherRequest (testEnv "fakekey") erroWorld [] "/weather/1234"
      = some ({ contentType := "application/json", statusCode := 422,
                body := .error { message := "invalid zipcode" } }, []) := by
    decide
  refine ⟨fun _ _ => ⟨_, erroResp, erroDecoded, rfl, rfl, by rfl, rfl⟩, h, ?_⟩
  rw [h]
  decide

/-- C6, amended: when the postal lookup answers the error flag, the handler
answers 404 with message "can not find zipcode" for every raw postal code that
passes validation, whatever the weather host would answer; a raw postal code
that fails validation is answered 422 with message "invalid zipcode" and no
URL is requested. -/
theorem handleWeatherRequest_erro_flag (env : Env) (w : World) (tr : List String)
    (raw : String) :
    (isValidCEP raw = true →
      (∃ resp body loc,
        w tr ("https://viacep.com.br/ws/" ++ String.mk (raw.data.filter isDigit09) ++ "/json/")
          = .ok resp
        ∧ resp.body = .ok body ∧ env.unmarshalViaCEP body = .ok loc ∧ loc.erro = true) →
      handleWeatherRequest env w tr ("/weather/" ++ raw)
        = some ({ contentType := "application/json", statusCode := 404,
                  body := .error { message := "can not find zipcode" } },
                tr ++ ["https://viacep.com.br/ws/" ++ String.mk (raw.data.filter isDigit09)
                  ++ "/json/"]))
    ∧ (isValidCEP raw = false →
      handleWeatherRequest env w tr ("/weather/" ++ raw)
        = some ({ contentType := "application/json", statusCode := 422,
                  body := .error { message := "invalid zipcode" } }, tr)) := by
  constructor
  · rintro hv ⟨resp, body, loc, h1, h2, h3, h4⟩
    obtain ⟨e, he⟩ := (getLocationByCEP_error_iff env w tr raw).mpr
      (.notFoundFlag resp body loc h1 h2 h3 h4)
    have hs := getLocationByCEP_snd env w tr raw
    unfold handleWeatherRequest
    rw [sliceFrom_append]
    simp only [hv]
    cases hg : getLocationByCEP env w tr raw with
    | mk r tr1 =>
      rw [hg] at he hs
      simp only [] at he hs
      subst he hs
      rfl
  · intro hv
    unfold handleWeatherRequest
    rw [sliceFrom_append]
    simp only [hv]
    rfl

theorem handleWeatherRequest_erro_flag_witness :
    (isValidCEP "00000000" = true ∧
      handleWeatherRequest (testEnv "fakekey") erroPostalWorld [] ("/weather/" ++ "00000000")
        = some ({ contentType := "application/json", statusCode := 404,
                  body := .error { message := "can not find zipcode" } },
                [] ++ ["https://viacep.com.br/ws/"
                  ++ String.mk ("00000000".data.filter isDigit09) ++ "/json/"]))
    ∧ (isValidCEP "1234" = false ∧
      handleWeatherRequest (testEnv "fakekey") erroPostalWorld [] ("/weather/" ++ "1234")
        = some ({ contentType := "application/json", statusCode := 422,
                  body := .error { message := "invalid zipcode" } }, [])) :=
  ⟨⟨by decide,
    (handleWeatherRequest_erro_flag (testEnv "fakekey") erroPostalWorld [] "00000000").1
      (by decide)
      ⟨{ statusCode := 200, body := .ok erroResp }, erroResp, erroDecoded,
        by rfl, rfl, by rfl, rfl⟩⟩,
   ⟨by decide,
    (handleWeatherRequest_erro_flag (testEnv "fakekey") erroPostalWorld [] "1234").2
      (by decide)⟩⟩

/-- C7: on every run of the handler that ends with status 200, the URLs
requested are exactly two, in this order: the postal lookup for the request's
postal code, then the weather lookup for the `localidade` that the postal
lookup answered. -/
theorem handleWeatherRequest_ok_trace (env : Env) (w : World) (tr tr' : List String)
    (raw : String) (out : Response)
    (hrun : handleWeatherRequest env w tr ("/weather/" ++ raw) = some (out, tr'))
    (hok : out.statusCode = 200) :
    ∃ resp body loc,
      w tr ("https://viacep.com.br/ws/" ++ String.mk (raw.data.filter isDigit09) ++ "/json/")
        = .ok resp
      ∧ resp.body = .ok body
      ∧ env.unmarshalViaCEP body = .ok loc
      ∧ tr' = tr ++
          ["https://viacep.com.br/ws/" ++ String.mk (raw.data.filter isDigit09) ++ "/json/",
           "http://api.weatherapi.com/v1/current.json?key=cfbabc7298d04b5896f154926252104&q="
             ++ queryEscape loc.localidade ++ "&aqi=no"] := by
  unfold handleWeatherRequest at hrun
  rw [sliceFrom_append] at hrun
  simp only [] at hrun
  cases hv : isValidCEP raw with
  | false =>
    rw [hv] at hrun
    simp only [Bool.not_false, if_true, Option.some.injEq, Prod.mk.injEq] at hrun
    rw [← hrun.1] at hok
    exact absurd hok (by decide)
  | true =>
    rw [hv] at hrun
    simp only [Bool.not_true, Bool.false_eq_true, if_false] at hrun
    have hl1 := getLocationByCEP_ok_iff env w tr raw
    have hl2 := getLocationByCEP_snd env w tr raw
    cases hg : getLocationByCEP env w tr raw with
    | mk r tr1 =>
      rw [hg] at hrun hl1 hl2
      simp only [] at hl1 hl2
      cases r with
      | error e =>
        simp only [Option.some.injEq, Prod.mk.injEq] at hrun
        rw [← hrun.1] at hok
        exact absurd hok (by decide)
      | ok loc =>
        simp only [] at hrun
        have ht2 := getTemperatureByLocation_snd env w tr1 loc.localidade
        cases ht : getTemperatureByLocation env w tr1 loc.localidade with
        | mk r2 tr2 =>
          rw [ht] at hrun ht2
          simp only [] at ht2
          cases r2 with
          | error e =>
            simp only [Option.some.injEq, Prod.mk.injEq] at hrun
            rw [← hrun.1] at hok
            exact absurd hok (by decide)
          | ok temp =>
            simp only [Option.some.injEq, Prod.mk.injEq] at hrun
            obtain ⟨resp, body, h1, h2, h3, _, _⟩ := (hl1 loc).mp rfl
            refine ⟨resp, body, loc, h1, h2, h3, ?_⟩
            rw [← hrun.2, ht2, hl2, List.append_assoc]
            rfl

theorem handleWeatherRequest_ok_trace_witness :
    ∃ resp body loc,
      testWorld [] ("https://viacep.com.br/ws/"
          ++ String.mk ("01001-000".data.filter isDigit09) ++ "/json/") = .ok resp
      ∧ resp.body = .ok body
      ∧ (testEnv "fakekey").unmarshalViaCEP body = .ok loc
      ∧ ["https://viacep.com.br/ws/01001000/json/",
         "http://api.weatherapi.com/v1/current.json?key=cfbabc7298d04b5896f154926252104&q=S%C3%A3o+Paulo&aqi=no"]
        = [] ++
          ["https://viacep.com.br/ws/" ++ String.mk ("01001-000".data.filter isDigit09)
             ++ "/json/",
           "http://api.weatherapi.com/v1/current.json?key=cfbabc7298d04b5896f154926252104&q="
             ++ queryEscape loc.localidade ++ "&aqi=no"] :=
  handleWeatherRequest_ok_trace (testEnv "fakekey") testWorld []
    ["https://viacep.com.br/ws/01001000/json/",
     "http://api.weatherapi.com/v1/current.json?key=cfbabc7298d04b5896f154926252104&q=S%C3%A3o+Paulo&aqi=no"]
    "01001-000"
    { contentType := "application/json", statusCode := 200,
      body := .temperature { tempC := 25, tempF := 25 * 1.8 + 32, tempK := 25 + 273.15 } }
    (by rfl) (by rfl)

/-- C8: for every postal-lookup body that is read and decoded, `getLocationByCEP`
fails exactly when the decoded `erro` flag is set or the decoded `localidade`
is empty, and otherwise returns the decoded value itself, every field
unchanged. -/
theorem getLocationByCEP_decoded (env : Env) (w : World) (tr : List String) (cep : String)
    (resp : HttpResponse) (body : String) (loc : ViaCEPResponse)
    (hget : w tr ("https://viacep.com.br/ws/" ++ String.mk (cep.data.filter isDigit09)
      ++ "/json/") = .ok resp)
    (hread : resp.body = .ok body)
    (hjson : env.unmarshalViaCEP body = .ok loc) :
    ((∃ e, (getLocationByCEP env w tr cep).1 = .error e) ↔
      (loc.erro = true ∨ loc.localidade = ""))
    ∧ (¬ (loc.erro = true ∨ loc.localidade = "") →
      (getLocationByCEP env w tr cep).1 = .ok loc) := by
  have hres : (getLocationByCEP env w tr cep).1
      = if loc.erro || loc.localidade == "" then .error "CEP not found" else .ok loc := by
    unfold getLocationByCEP httpGet
    simp only [replaceAllString_nonDigit, hget, hread, hjson]
    split <;> rfl
  rw [hres]
  by_cases hc : (loc.erro || loc.localidade == "") = true
  · rw [if_pos hc]
    simp only [Bool.or_eq_true, beq_iff_eq] at hc
    exact ⟨⟨fun _ => hc, fun _ => ⟨_, rfl⟩⟩, fun hn => absurd hc hn⟩
  · rw [if_neg hc]
    simp only [Bool.or_eq_true, beq_iff_eq] at hc
    refine ⟨⟨?_, fun h => absurd h hc⟩, fun _ => rfl⟩
    rintro ⟨e, he⟩
    cases he

theorem getLocationByCEP_decoded_witness :
    (getLocationByCEP (testEnv "fakekey") testWorld [] "01001-000").1 = .ok saoPaulo
    ∧ ∃ e, (getLocationByCEP (testEnv "fakekey") erroWorld [] "00000000").1 = .error e :=
  ⟨(getLocationByCEP_decoded (testEnv "fakekey") testWorld [] "01001-000"
      { statusCode := 200, body := .ok viaCEPResp } viaCEPResp saoPaulo
      (by rfl) rfl (by rfl)).2 (by decide),
   (getLocationByCEP_decoded (testEnv "fakekey") erroWorld [] "00000000"
      { statusCode := 200, body := .ok erroResp } erroResp erroDecoded
      rfl rfl (by rfl)).1.mpr (Or.inl rfl)⟩


/-- C9: the URL `getTemperatureByLocation` requests carries the key written in
the source, whatever `WEATHER_API_KEY` holds: with the variable set to
"fakekey" and with it set to "otherkey" the same URL is requested, and its key
parameter is neither of them. -/
theorem getTemperatureByLocation_key_fixed :
    (∀ (env : Env) (w : World) (tr : List String) (city : String),
      (getTemperatureByLocation env w tr city).2 = tr ++
        ["http://api.weatherapi.com/v1/current.json?key=cfbabc7298d04b5896f154926252104&q="
          ++ queryEscape city ++ "&aqi=no"])
    ∧ (testEnv "fakekey").getenv "WEATHER_API_KEY" = "fakekey"
    ∧ (getTemperatureByLocation (testEnv "fakekey") testWorld [] "São Paulo").2 =
        ["http://api.weatherapi.com/v1/current.json?key=cfbabc7298d04b5896f154926252104&q=S%C3%A3o+Paulo&aqi=no"]
    ∧ (testEnv "otherkey").getenv "WEATHER_API_KEY" = "otherkey"
    ∧ (getTemperatureByLocation (testEnv "otherkey") testWorld [] "São Paulo").2 =
        ["http://api.weatherapi.com/v1/current.json?key=cfbabc7298d04b5896f154926252104&q=S%C3%A3o+Paulo&aqi=no"] :=
  ⟨getTemperatureByLocation_snd, by decide, by rfl, by decide, by rfl⟩

/-- C10: for every raw postal code, the one URL `getLocationByCEP` requests is
"https://viacep.com.br/ws/", then the raw string without its characters
outside `'0'..'9'`, then "/json/"; `isValidCEP` measures the length of that same
cleaned string; so for every input `isValidCEP` accepts the path segment is
8 characters long and each of them is in `'0'..'9'`. -/
theorem getLocationByCEP_url (env : Env) (w : World) (tr : List String) (cep : String) :
    (getLocationByCEP env w tr cep).2 = tr ++
      ["https://viacep.com.br/ws/"
        ++ String.mk (cep.data.filter fun c => decide ('0' ≤ c ∧ c ≤ '9')) ++ "/json/"]
    ∧ replaceAllString nonDigit cep ""
        = String.mk (cep.data.filter fun c => decide ('0' ≤ c ∧ c ≤ '9'))
    ∧ isValidCEP cep
        = (len (String.mk (cep.data.filter fun c => decide ('0' ≤ c ∧ c ≤ '9'))) == 8)
    ∧ (isValidCEP cep = true →
        (cep.data.filter fun c => decide ('0' ≤ c ∧ c ≤ '9')).length = 8
        ∧ ∀ c ∈ cep.data.filter (fun c => decide ('0' ≤ c ∧ c ≤ '9')), '0' ≤ c ∧ c ≤ '9') := by
  refine ⟨getLocationByCEP_snd env w tr cep, replaceAllString_nonDigit cep, ?_, fun hv => ⟨?_, ?_⟩⟩
  · unfold isValidCEP
    simp only [replaceAllString_nonDigit]
    rfl
  · rw [isValidCEP_eq, decide_eq_true_iff, List.countP_eq_length_filter] at hv
    exact hv
  · intro c hc
    exact of_decide_eq_true (List.mem_filter.mp hc).2

theorem getLocationByCEP_url_witness :
    isValidCEP "01001-000" = true ∧
    (getLocationByCEP (testEnv "fakekey") testWorld [] "01001-000").2
      = ["https://viacep.com.br/ws/01001000/json/"] ∧
    ("01001-000".data.filter fun c => decide ('0' ≤ c ∧ c ≤ '9')).length = 8 :=
  ⟨by decide,
   (getLocationByCEP_url (testEnv "fakekey") testWorld [] "01001-000").1,
   ((getLocationByCEP_url (testEnv "fakekey") testWorld [] "01001-000").2.2.2
      (by decide)).1⟩


end GoLabAuction
